import Mathlib

/-!
Shallow embedding of the sidecar supervisor in `src/src-tauri/src/lib.rs`
(the `sber-whisper` desktop application).  Pure functions of the source are
translated to Lean functions; the shared mutable state (`SharedState`) is
threaded explicitly; OS-level effects (filesystem existence, process spawn,
pipe write, clipboard, the JSON library parse) are parameters of the
functions that perform them.
-/

namespace SberWhisper

/-- A single quote character, used inside error messages. -/
def squote : String := String.singleton (Char.ofNat 39)

/-! ## JSON values

`serde_json::Value` restricted to what the supervisor exchanges: the number
case carries an `Int` (the protocol only uses integral numbers).  Arrays and
objects are mutual inductives so that recursion and induction stay
structural. -/

mutual

inductive JValue where
  | null : JValue
  | bool (b : Bool) : JValue
  | num (n : Int) : JValue
  | str (s : String) : JValue
  | arr (a : JArr) : JValue
  | obj (o : JObj) : JValue
deriving DecidableEq

inductive JArr where
  | nil : JArr
  | cons (v : JValue) (t : JArr) : JArr
deriving DecidableEq

inductive JObj where
  | nil : JObj
  | cons (k : String) (v : JValue) (t : JObj) : JObj
deriving DecidableEq

end

/-- `Value::get(key)` on an object: first field with the given key. -/
def JObj.get : JObj → String → Option JValue
  | .nil, _ => none
  | .cons k v t, key => if k = key then some v else t.get key

/-- `Value::get(key)`: `None` unless the value is an object. -/
def JValue.getField : JValue → String → Option JValue
  | .obj o, key => o.get key
  | _, _ => none

/-- Hex digit used by the JSON control-character escape. -/
def hexDigit (n : Nat) : Char :=
  if n < 10 then Char.ofNat (48 + n) else Char.ofNat (87 + n)

/-- `serde_json` string escaping of one character: `"`, `\` and control
characters are escaped, everything else passes through. -/
def escapeChar (c : Char) : String :=
  if c = Char.ofNat 34 then "\\\""
  else if c = Char.ofNat 92 then "\\\\"
  else if c = Char.ofNat 10 then "\\n"
  else if c = Char.ofNat 13 then "\\r"
  else if c = Char.ofNat 9 then "\\t"
  else if c = Char.ofNat 8 then "\\b"
  else if c = Char.ofNat 12 then "\\f"
  else if c.toNat < 32 then
    "\\u00" ++ String.singleton (hexDigit (c.toNat / 16))
            ++ String.singleton (hexDigit (c.toNat % 16))
  else String.singleton c

/-- Escape a list of characters. -/
def escapeList : List Char → String
  | [] => ""
  | c :: cs => escapeChar c ++ escapeList cs

/-- Escape a whole string (without the surrounding quotes). -/
def escapeString (s : String) : String :=
  escapeList s.data

/-- Decimal digits of a natural number, most significant first, pushed onto
`acc`. -/
def natDigitsAux : Nat → List Char → List Char
  | 0, acc => acc
  | n + 1, acc =>
      natDigitsAux ((n + 1) / 10) (Char.ofNat (48 + (n + 1) % 10) :: acc)
decreasing_by exact Nat.div_lt_self (Nat.succ_pos n) (by omega)

/-- Decimal rendering of a natural number. -/
def natToStr (n : Nat) : String :=
  if n = 0 then "0" else String.mk (natDigitsAux n [])

/-- Decimal rendering of an integer, as the `Display` of a JSON number. -/
def intToStr (i : Int) : String :=
  if i < 0 then "-" ++ natToStr i.natAbs else natToStr i.natAbs

mutual

/-- Compact rendering, as `serde_json`'s `Display` used by
`format!("{}\n", command)`. -/
def JValue.render : JValue → String
  | .null => "null"
  | .bool true => "true"
  | .bool false => "false"
  | .num n => intToStr n
  | .str s => "\"" ++ escapeString s ++ "\""
  | .arr a => "[" ++ a.render ++ "]"
  | .obj o => "\x7b" ++ o.render ++ "\x7d"

def JArr.render : JArr → String
  | .nil => ""
  | .cons v .nil => v.render
  | .cons v (.cons w t) => v.render ++ "," ++ (JArr.cons w t).render

def JObj.render : JObj → String
  | .nil => ""
  | .cons k v .nil => "\"" ++ escapeString k ++ "\":" ++ v.render
  | .cons k v (.cons k2 w t) =>
      "\"" ++ escapeString k ++ "\":" ++ v.render ++ "," ++ (JObj.cons k2 w t).render

end

/-- `json!({ "command": c })` — the one-field object used for commands. -/
def jcmd (c : String) : JValue :=
  .obj (.cons "command" (.str c) .nil)

/-- `json!({ "event": "error", "message": m })`. -/
def jerror (m : String) : JValue :=
  .obj (.cons "event" (.str "error") (.cons "message" (.str m) .nil))

/-! ## Recording state machine (hotkey edges)

`handle_hotkey_press` / `handle_hotkey_release` (lib.rs lines 745-769): each
edge performs a compare-and-swap on the `recording_started` atomic
(`false→true` on press, `true→false` on release) and only on a successful
swap shows the popup and dispatches the corresponding command.  A lost swap
is a no-op.  The dispatch is an attempt (`send_command_or_emit_error`); its
failure does not touch the flag.  We model the flag plus the list of
commands each edge dispatches. -/

inductive Edge where
  | press : Edge
  | release : Edge
deriving DecidableEq

/-- One hotkey edge: returns the new flag and the commands dispatched by
this edge (empty when the compare-and-swap loses). -/
def hotkeyStep (flag : Bool) : Edge → Bool × List JValue
  | .press => if flag = false then (true, [jcmd "start_recording"]) else (flag, [])
  | .release => if flag = true then (false, [jcmd "stop_and_transcribe"]) else (flag, [])

/-- Run a sequence of edges; second component lists, per edge, the commands
that edge dispatched. -/
def hotkeyRun : Bool → List Edge → Bool × List (List JValue)
  | flag, [] => (flag, [])
  | flag, e :: es =>
    let s := hotkeyStep flag e
    let r := hotkeyRun s.1 es
    (r.1, s.2 :: r.2)

/-- Effective presses and releases: those whose compare-and-swap succeeds. -/
def effCounts : Bool → List Edge → Nat × Nat
  | _, [] => (0, 0)
  | flag, .press :: es =>
    if flag = false then
      let c := effCounts true es
      (c.1 + 1, c.2)
    else effCounts flag es
  | flag, .release :: es =>
    if flag = true then
      let c := effCounts false es
      (c.1, c.2 + 1)
    else effCounts flag es

/-! ## stdout reader (`spawn_stdout_reader`, lib.rs lines 550-617)

The reader thread is modelled as a function of the finite list of byte
lines its `read_until` calls produced, plus the cause that ended the loop
(`Ok(0)` end-of-stream, or a read error).  The external pieces are
parameters: `decode` is the UTF-8 decoder (`(valid?, text)`, total — the
lossy path always yields a string), `parse` is `serde_json::from_str`, and
`clipRes` is the clipboard sink's result for a given text. -/

/-- Per-line output of the reader body: texts handed to the clipboard sink,
payloads emitted as `asr_event`, and log lines. -/
structure LineOut where
  clipboard : List String
  emitted : List JValue
  logs : List String
deriving DecidableEq

def LineOut.empty : LineOut := ⟨[], [], []⟩

/-- `copy_text_to_clipboard` (lib.rs 219-233): hands `text` to the clipboard
sink once; on sink failure logs and emits a clipboard error event. -/
def copy_text_to_clipboard (clipRes : String → Option String) (text : String) : LineOut :=
  match clipRes text with
  | none => ⟨[text], [], ["copied transcript to clipboard"]⟩
  | some e =>
      ⟨[text], [jerror ("Clipboard copy failed: " ++ e)],
       ["clipboard copy failed: " ++ e]⟩

/-- Handling of one successfully parsed payload (lib.rs 581-592): a
`final_transcript` with a string `text` field goes to the clipboard, a
`ready` event is logged, and the payload itself is always emitted last. -/
def processParsed (clipRes : String → Option String) (payload : JValue) : LineOut :=
  let clipOut :=
    if payload.getField "event" = some (.str "final_transcript") then
      match payload.getField "text" with
      | some (.str t) => copy_text_to_clipboard clipRes t
      | _ => LineOut.empty
    else LineOut.empty
  let readyLog :=
    if payload.getField "event" = some (.str "ready") then
      ["sidecar ready event received"]
    else []
  ⟨clipOut.clipboard, clipOut.emitted ++ [payload], clipOut.logs ++ readyLog⟩

/-- Trailing `\n`/`\r` bytes are popped before the line is used
(lib.rs 561-567). -/
def trimTrailingNewlines (bytes : List Nat) : List Nat :=
  (bytes.reverse.dropWhile (fun b => b = 10 || b = 13)).reverse

/-- One iteration of the reader loop on a line of bytes (lib.rs 560-598):
trim, skip if empty, decode (logging when the strict UTF-8 decode failed),
parse; a parse failure only logs. -/
def processLine (decode : List Nat → Bool × String)
    (parse : String → Except String JValue)
    (clipRes : String → Option String) (bytes : List Nat) : LineOut :=
  let buf := trimTrailingNewlines bytes
  if buf = [] then LineOut.empty
  else
    let d := decode buf
    let utf8Log :=
      if d.1 then []
      else ["sidecar stdout contained non-UTF8 bytes; decoding lossy"]
    match parse d.2 with
    | .ok payload =>
        let o := processParsed clipRes payload
        ⟨o.clipboard, o.emitted, utf8Log ++ o.logs⟩
    | .error e =>
        ⟨[], [],
         utf8Log ++ ["invalid sidecar JSON " ++ squote ++ d.2 ++ squote ++ ": " ++ e]⟩

/-- Why the read loop stopped: end-of-stream, or a read error. -/
inductive TermCause where
  | eof : TermCause
  | readErr (e : String) : TermCause
deriving DecidableEq

/-- The loop body over all lines, ending with the cause (a read error adds
one log line; both causes break the loop, lib.rs 559 and 599-603). -/
def readerLoop (decode : List Nat → Bool × String)
    (parse : String → Except String JValue)
    (clipRes : String → Option String) :
    List (List Nat) → TermCause → LineOut
  | [], .eof => LineOut.empty
  | [], .readErr e => ⟨[], [], ["sidecar stdout read error: " ++ e]⟩
  | l :: ls, cause =>
      let o := processLine decode parse clipRes l
      let r := readerLoop decode parse clipRes ls cause
      ⟨o.clipboard ++ r.clipboard, o.emitted ++ r.emitted, o.logs ++ r.logs⟩

/-- The synthetic disconnect event emitted after the loop (lib.rs 609-615). -/
def disconnectEvent : JValue :=
  jerror "ASR sidecar disconnected. It will restart on next action."

/-- Full output of one reader-thread run: the loop body plus the epilogue,
which stores `false` into the recording flag and emits the disconnect event
once.  `spawnsAttempted` counts process launches performed by the reader:
the source launches none. -/
structure ReaderOutput where
  clipboard : List String
  emitted : List JValue
  logs : List String
  synthetic : List JValue
  flagAfter : Bool
  spawnsAttempted : Nat
deriving DecidableEq

/-- One whole run of the `spawn_stdout_reader` thread (lib.rs 550-617). -/
def readerRun (decode : List Nat → Bool × String)
    (parse : String → Except String JValue)
    (clipRes : String → Option String)
    (lines : List (List Nat)) (cause : TermCause) : ReaderOutput :=
  let body := readerLoop decode parse clipRes lines cause
  ⟨body.clipboard, body.emitted, body.logs, [disconnectEvent], false, 0⟩

/-! ## Supervisor (`SharedState`, `ensure_sidecar_running`,
`send_sidecar_command`, `cleanup_sidecar`, UI commands)

The shared state is threaded explicitly; lock acquisition is modelled as
always succeeding (the poisoned-mutex branches of the source are
unreachable without a panicking thread).  OS interaction — `try_wait`
liveness probes, process launches, stdin writes and flushes — is supplied
through oracle parameters; `Option String` oracles give `none` for `Ok` and
`some e` for `Err(e)`. -/

/-- A live worker handle: an identity and the chunks written to its stdin
(`SidecarProcess { child, stdin }`). -/
structure SidecarProc where
  id : Nat
  stdinWrites : List String
deriving DecidableEq

/-- The supervisor-relevant part of `SharedState`: the guarded sidecar
slot, the `recording_started` atomic and the `shutdown` atomic. -/
structure AppState where
  slot : Option SidecarProc
  recording : Bool
  shutdown : Bool
deriving DecidableEq

/-- Result of `child.try_wait()`. -/
inductive TryWaitResult where
  | exited (status : Int) : TryWaitResult
  | running : TryWaitResult
  | err (e : String) : TryWaitResult
deriving DecidableEq

/-- Output of `ensure_sidecar_running`: the state after the call, `none`
for `Ok(())` or the propagated error, the number of launch attempts made
inside the call, and the log lines. -/
structure EnsureOut where
  st : AppState
  res : Option String
  launches : Nat
  logs : List String
deriving DecidableEq

/-- `ensure_sidecar_running` (lib.rs 632-659): probe a present handle with
`try_wait` (an observed exit or a probe error both mean restart); when the
slot is empty or a restart is needed, launch and store the new handle.  A
launch failure is returned and leaves the slot unchanged (the `?` operator
returns before the slot assignment). -/
def ensure_sidecar_running (st : AppState) (tryWait : Nat → TryWaitResult)
    (launch : Except String SidecarProc) : EnsureOut :=
  let probe : Bool × List String :=
    match st.slot with
    | some proc =>
        match tryWait proc.id with
        | .exited status => (true, ["sidecar exited with status " ++ toString status])
        | .running => (false, [])
        | .err e => (true, ["sidecar try_wait failed: " ++ e])
    | none => (true, [])
  if probe.1 then
    match launch with
    | .ok p => ⟨{ st with slot := some p }, none, 1, probe.2⟩
    | .error e => ⟨st, some e, 1, probe.2⟩
  else ⟨st, none, 0, probe.2⟩

/-- Output of `send_sidecar_command`: state, result, launch attempts,
`write_all` attempts, logs. -/
structure DispatchOut where
  st : AppState
  res : Option String
  launches : Nat
  writes : Nat
  logs : List String
deriving DecidableEq

/-- `send_sidecar_command` (lib.rs 661-683): run `ensure_sidecar_running`,
then serialize the command as `format!("{}\n", command)` and write+flush it
to the current handle's stdin.  `writeRes`/`flushRes` are the results of
`write_all` and `flush`; each failure is returned as a dispatch error with
no retry. -/
def send_sidecar_command (st : AppState) (tryWait : Nat → TryWaitResult)
    (launch : Except String SidecarProc) (writeRes flushRes : Option String)
    (command : JValue) : DispatchOut :=
  let e := ensure_sidecar_running st tryWait launch
  match e.res with
  | some err => ⟨e.st, some err, e.launches, 0, e.logs⟩
  | none =>
    match e.st.slot with
    | none => ⟨e.st, some "sidecar is not available", e.launches, 0, e.logs⟩
    | some proc =>
      let line := command.render ++ "\n"
      match writeRes with
      | some werr =>
          ⟨e.st, some ("failed to write sidecar command: " ++ werr), e.launches, 1, e.logs⟩
      | none =>
        let st2 : AppState :=
          { e.st with slot := some { proc with stdinWrites := proc.stdinWrites ++ [line] } }
        match flushRes with
        | some ferr =>
            ⟨st2, some ("failed to flush sidecar command: " ++ ferr), e.launches, 1, e.logs⟩
        | none => ⟨st2, none, e.launches, 1, e.logs⟩

/-- Output of `send_command_or_emit_error` and of the UI commands built on
it: state, events emitted to the UI, the commands handed to
`send_sidecar_command`, launch and write attempt counts, logs. -/
structure CommandOut where
  st : AppState
  emitted : List JValue
  dispatched : List JValue
  launches : Nat
  writes : Nat
  logs : List String
deriving DecidableEq

/-- `send_command_or_emit_error` (lib.rs 738-743): dispatch; on failure log
and emit an `error` event, leaving the flag untouched. -/
def send_command_or_emit_error (st : AppState) (tryWait : Nat → TryWaitResult)
    (launch : Except String SidecarProc) (writeRes flushRes : Option String)
    (payload : JValue) : CommandOut :=
  let d := send_sidecar_command st tryWait launch writeRes flushRes payload
  match d.res with
  | none => ⟨d.st, [], [payload], d.launches, d.writes, d.logs⟩
  | some err =>
      ⟨d.st, [jerror err], [payload], d.launches, d.writes,
       d.logs ++ ["sidecar command failed: " ++ err]⟩

/-- UI command `start_recording` (lib.rs 839-845): unconditional
`store(true)`, show popup (a pure UI effect, not modelled), then dispatch. -/
def start_recording (st : AppState) (tryWait : Nat → TryWaitResult)
    (launch : Except String SidecarProc) (writeRes flushRes : Option String) :
    CommandOut :=
  send_command_or_emit_error { st with recording := true }
    tryWait launch writeRes flushRes (jcmd "start_recording")

/-- UI command `stop_and_transcribe` (lib.rs 847-853): unconditional
`store(false)`, show popup, then dispatch. -/
def stop_and_transcribe (st : AppState) (tryWait : Nat → TryWaitResult)
    (launch : Except String SidecarProc) (writeRes flushRes : Option String) :
    CommandOut :=
  send_command_or_emit_error { st with recording := false }
    tryWait launch writeRes flushRes (jcmd "stop_and_transcribe")

/-- UI command `cancel_current` (lib.rs 855-860): unconditional
`store(false)`, then dispatch (no popup). -/
def cancel_current (st : AppState) (tryWait : Nat → TryWaitResult)
    (launch : Except String SidecarProc) (writeRes flushRes : Option String) :
    CommandOut :=
  send_command_or_emit_error { st with recording := false }
    tryWait launch writeRes flushRes (jcmd "cancel_current")

/-- The four best-effort teardown steps of `cleanup_sidecar`. -/
inductive TeardownStep where
  | writeCmd : TeardownStep
  | flushStdin : TeardownStep
  | killChild : TeardownStep
  | waitChild : TeardownStep
deriving DecidableEq

/-- Output of `cleanup_sidecar`: the state after teardown, the steps
attempted in order, and the bytes passed to the stdin `write_all`. -/
structure CleanupOut where
  st : AppState
  steps : List TeardownStep
  stdinAttempt : List String
deriving DecidableEq

/-- `cleanup_sidecar` (lib.rs 948-967): set the shutdown flag, take the
handle out of the slot, then — when a handle was present — attempt write,
flush, kill and wait, discarding every result (`let _ = ...`), so each of
the four oracles is ignored and a failure never skips a later step. -/
def cleanup_sidecar (st : AppState)
    (_writeRes _flushRes _killRes _waitRes : Option String) : CleanupOut :=
  let st1 : AppState := { st with shutdown := true }
  match st1.slot with
  | none => ⟨{ st1 with slot := none }, [], []⟩
  | some _ =>
      ⟨{ st1 with slot := none },
       [.writeCmd, .flushStdin, .killChild, .waitChild],
       [(jcmd "shutdown").render ++ "\n"]⟩

/-! ## Discovery (`find_python_script`, `find_sidecar_binary`) and the
two-tier launcher (`allow_script_fallback`, `start_sidecar_process`)

Paths are strings; `PathBuf::join` of a component is `/`-concatenation.
The anchors are parameters: `cwd` for `std::env::current_dir()` (`none`
when it errors), `exeAncestors` for the ancestor chain of
`std::env::current_exe()` (the path itself first; `[]` when it errors),
`resourceDir` for `app.path().resource_dir()`.  `pexists` is
`Path::exists`. -/

/-- `base.join(rel)`. -/
def pjoin (base rel : String) : String := base ++ "/" ++ rel

/-- The candidate list built by `find_python_script` (lib.rs 236-265), in
source order: five relative offsets, four cwd-anchored, four per exe
ancestor (first seven ancestors), three resource-anchored. -/
def find_python_script_candidates (cwd : Option String)
    (exeAncestors : List String) (resourceDir : Option String) : List String :=
  ["python/asr_service.py",
   "_up_/python/asr_service.py",
   "../python/asr_service.py",
   "../_up_/python/asr_service.py",
   "../../python/asr_service.py"]
  ++ (match cwd with
      | some c =>
          [pjoin c "python/asr_service.py",
           pjoin c "_up_/python/asr_service.py",
           pjoin c "../python/asr_service.py",
           pjoin c "../_up_/python/asr_service.py"]
      | none => [])
  ++ ((exeAncestors.take 7).map (fun base =>
        [pjoin base "python/asr_service.py",
         pjoin base "_up_/python/asr_service.py",
         pjoin base "../python/asr_service.py",
         pjoin base "../_up_/python/asr_service.py"])).flatten
  ++ (match resourceDir with
      | some r =>
          [pjoin r "python/asr_service.py",
           pjoin r "_up_/python/asr_service.py",
           pjoin r "asr_service.py"]
      | none => [])

/-- The `for path in candidates` loop shared by both discovery functions:
push onto `checked`, return the first existing path, else the number of
paths checked. -/
def scanCandidates (pexists : String → Bool) : List String → Nat → Except Nat String
  | [], n => .error n
  | p :: ps, n => if pexists p then .ok p else scanCandidates pexists ps (n + 1)

/-- `find_python_script` (lib.rs 235-278). -/
def find_python_script (pexists : String → Bool) (cwd : Option String)
    (exeAncestors : List String) (resourceDir : Option String) :
    Except String String :=
  match scanCandidates pexists (find_python_script_candidates cwd exeAncestors resourceDir) 0 with
  | .ok p => .ok p
  | .error n =>
      .error ("python/asr_service.py not found (checked " ++ toString n ++ " paths)")

/-- `sidecar_binary_name` (lib.rs 280-293). -/
def sidecar_binary_name (windows : Bool) : String :=
  if windows then "sber-whisper-sidecar.exe" else "sber-whisper-sidecar"

/-- The candidate list built by `find_sidecar_binary` (lib.rs 295-379), in
source order: five relative offsets, two cwd-anchored, three
resource-anchored, three per exe ancestor (first seven ancestors). -/
def find_sidecar_binary_candidates (windows : Bool) (cwd : Option String)
    (exeAncestors : List String) (resourceDir : Option String) : List String :=
  let binary := sidecar_binary_name windows
  let suffix := pjoin "python/dist/sber-whisper-sidecar" binary
  [suffix, pjoin "_up_" suffix, pjoin ".." suffix,
   pjoin "../_up_" suffix, pjoin "../.." suffix]
  ++ (match cwd with
      | some c => [pjoin c suffix, pjoin c (pjoin "_up_" suffix)]
      | none => [])
  ++ (match resourceDir with
      | some r =>
          [pjoin r suffix, pjoin r (pjoin "_up_" suffix),
           pjoin r (pjoin "sber-whisper-sidecar" binary)]
      | none => [])
  ++ ((exeAncestors.take 7).map (fun base =>
        [pjoin base suffix, pjoin base (pjoin "_up_" suffix),
         pjoin base (pjoin "sber-whisper-sidecar" binary)])).flatten

/-- `find_sidecar_binary` (lib.rs 295-393). -/
def find_sidecar_binary (windows : Bool) (pexists : String → Bool)
    (cwd : Option String) (exeAncestors : List String)
    (resourceDir : Option String) : Except String String :=
  let binary := sidecar_binary_name windows
  match scanCandidates pexists (find_sidecar_binary_candidates windows cwd exeAncestors resourceDir) 0 with
  | .ok p => .ok p
  | .error n =>
      .error ("bundled sidecar binary " ++ squote ++ binary ++ squote
              ++ " not found (checked " ++ toString n ++ " paths)")

/-- ASCII lowercase of one character, as `eq_ignore_ascii_case` folds. -/
def asciiLowerChar (c : Char) : Char :=
  if 65 ≤ c.toNat ∧ c.toNat ≤ 90 then Char.ofNat (c.toNat + 32) else c

/-- ASCII-lowercased string. -/
def asciiLower (s : String) : String := String.map asciiLowerChar s

/-- `allow_script_fallback` (lib.rs 395-407): always true under
`debug_assertions`; otherwise the `SBER_WHISPER_ALLOW_SCRIPT_FALLBACK`
variable, trimmed, must be `1` or case-insensitively `true`. -/
def allow_script_fallback (debugAssertions : Bool) (envVar : Option String) : Bool :=
  if debugAssertions then true
  else
    match envVar with
    | some raw =>
        let value := raw.trim
        value == "1" || asciiLower value == "true"
    | none => false

/-- How a spawn-and-capture attempt can fail: the OS spawn error, or a
missing pipe handle after spawn. -/
inductive SpawnErr where
  | os (e : String) : SpawnErr
  | noStdin : SpawnErr
  | noStdout : SpawnErr
  | noStderr : SpawnErr
deriving DecidableEq

/-- `spawn_sidecar_command` (lib.rs 409-447): spawn with piped streams and
format the failure message.  The readers started here are modelled
separately (`readerRun`); the environment overlay is applied by the caller
and not observed by any claim. -/
def spawn_sidecar_command
    (spawnOS : String → List String → Except SpawnErr SidecarProc)
    (program : String) (args : List String) (label : String) :
    Except String SidecarProc :=
  match spawnOS program args with
  | .ok p => .ok p
  | .error (.os e) =>
      .error ("failed to spawn sidecar " ++ squote ++ label ++ squote ++ ": " ++ e)
  | .error .noStdin => .error "failed to capture sidecar stdin"
  | .error .noStdout => .error "failed to capture sidecar stdout"
  | .error .noStderr => .error "failed to capture sidecar stderr"

/-- The interpreter loop of the fallback tier (lib.rs 527-542): try each
`(bin, args)` in order; first success wins; failures accumulate.  Returns
the winning process (if any), the attempts actually spawned in order, and
the error strings collected. -/
def interpLoop (spawnOS : String → List String → Except SpawnErr SidecarProc) :
    List (String × List String) →
    Option SidecarProc × List (String × List String) × List String
  | [] => (none, [], [])
  | (bin, args) :: rest =>
      match spawn_sidecar_command spawnOS bin args bin with
      | .ok p => (some p, [(bin, args)], [])
      | .error e =>
          let r := interpLoop spawnOS rest
          (r.1, (bin, args) :: r.2.1, e :: r.2.2)

/-- Result of `start_sidecar_process` plus the trace of `(program, args)`
pairs actually handed to the OS spawn. -/
structure LaunchOut where
  res : Except String SidecarProc
  attempts : List (String × List String)

/-- `start_sidecar_process` (lib.rs 470-548): tier 1 is the discovered
bundled binary; when tier 1 fails and the script fallback is not permitted,
fail with the aggregated error; otherwise discover the python script
(propagating its error via `?`) and run the interpreter loop
(`python`, `python3`, plus `py -3` on Windows). -/
def start_sidecar_process (windows debugAssertions : Bool)
    (envVar : Option String) (pexists : String → Bool) (cwd : Option String)
    (exeAncestors : List String) (resourceDir : Option String)
    (spawnOS : String → List String → Except SpawnErr SidecarProc) : LaunchOut :=
  let tier1 : Except String SidecarProc × List String × List (String × List String) :=
    match find_sidecar_binary windows pexists cwd exeAncestors resourceDir with
    | .ok bin =>
        match spawn_sidecar_command spawnOS bin [] bin with
        | .ok p => (.ok p, [], [(bin, [])])
        | .error e => (.error e, [e], [(bin, [])])
    | .error e => (.error e, [e], [])
  match tier1.1 with
  | .ok p => ⟨.ok p, tier1.2.2⟩
  | .error _ =>
    let errors := tier1.2.1
    if !allow_script_fallback debugAssertions envVar then
      ⟨.error ("failed to start bundled ASR sidecar; reinstall app. details: "
               ++ String.intercalate " | " errors), tier1.2.2⟩
    else
      match find_python_script pexists cwd exeAncestors resourceDir with
      | .error e => ⟨.error e, tier1.2.2⟩
      | .ok script =>
          let tries : List (String × List String) :=
            [("python", [script]), ("python3", [script])]
            ++ (if windows then [("py", ["-3", script])] else [])
          let r := interpLoop spawnOS tries
          match r.1 with
          | some p => ⟨.ok p, tier1.2.2 ++ r.2.1⟩
          | none =>
              let lastErr := (r.2.2.getLast?).getD ""
              ⟨.error ("failed to start sidecar process (" ++ lastErr
                       ++ "); details: "
                       ++ String.intercalate " | " (errors ++ r.2.2)),
               tier1.2.2 ++ r.2.1⟩

/-- The `needs_restart` condition computed by `ensure_sidecar_running`
(lib.rs 638-652), factored out for the statements below: a present handle
needs a restart when `try_wait` observes an exit or itself errors; an empty
slot always launches. -/
def needsRestart (st : AppState) (tryWait : Nat → TryWaitResult) : Bool :=
  match st.slot with
  | some proc =>
      match tryWait proc.id with
      | .exited _ => true
      | .running => false
      | .err _ => true
  | none => true

/-! ## Concrete fixtures used by the witnesses -/

/-- Identity byte decoder: every byte list is valid and maps to its chars. -/
def wDecode (bs : List Nat) : Bool × String := (true, String.mk (bs.map Char.ofNat))

/-- A tiny concrete stand-in for `serde_json::from_str` that accepts only
the literal `{}`. -/
def wParse (s : String) : Except String JValue :=
  if s = "\x7b\x7d" then .ok (.obj .nil) else .error "expected value"

/-- Clipboard sink that always succeeds. -/
def wClip (_ : String) : Option String := none

/-- A worker handle with identity `n` and empty stdin history. -/
def wProc (n : Nat) : SidecarProc := ⟨n, []⟩

/-- Liveness probe that reports an already-exited child. -/
def wTryWaitExited (_ : Nat) : TryWaitResult := .exited 0

/-- Liveness probe that reports a live child. -/
def wTryWaitRunning (_ : Nat) : TryWaitResult := .running

/-- Filesystem oracle on which no path exists. -/
def wNoFile (_ : String) : Bool := false

/-- OS spawn that always fails with a spawn error. -/
def wSpawnFail (_ : String) (_ : List String) : Except SpawnErr SidecarProc :=
  .error (.os "os error 2")

/-- The byte content of an example line (characters of `s`, then LF). -/
def wBytes (s : String) : List Nat := s.data.map Char.toNat ++ [10]

/-- The round-trip example payload
`{"event":"final_transcript","text":"hello world"}`. -/
def wFinalPayload : JValue :=
  .obj (.cons "event" (.str "final_transcript") (.cons "text" (.str "hello world") .nil))

/-! # Theorems -/

/-! ## Recording state machine (C1) -/

theorem hotkeyRun_flag_iff (es : List Edge) : ∀ flag : Bool,
    ((hotkeyRun flag es).1 = true) ↔
      (effCounts flag es).1 + (if flag then 1 else 0) = (effCounts flag es).2 + 1 := by
  induction es with
  | nil => intro flag; cases flag <;> simp [hotkeyRun, effCounts]
  | cons e es ih =>
    intro flag
    cases e <;> cases flag <;>
      simp only [hotkeyRun, hotkeyStep, effCounts, if_true, if_false, Bool.true_eq_false,
        Bool.false_eq_true, ite_true, ite_false] <;>
      simp [ih]

theorem hotkeyRun_flatten_len (es : List Edge) : ∀ flag : Bool,
    ((hotkeyRun flag es).2.flatten).length
      = (effCounts flag es).1 + (effCounts flag es).2 := by
  induction es with
  | nil => intro flag; simp [hotkeyRun, effCounts]
  | cons e es ih =>
    intro flag
    cases e <;> cases flag <;> simp [hotkeyRun, hotkeyStep, effCounts, ih] <;> omega

theorem hotkeyRun_mem_len (es : List Edge) : ∀ flag : Bool,
    ∀ d ∈ (hotkeyRun flag es).2, d.length ≤ 1 := by
  induction es with
  | nil => intro flag; simp [hotkeyRun]
  | cons e es ih =>
    intro flag d hd
    cases e <;> cases flag <;>
      simp only [hotkeyRun, hotkeyStep, List.mem_cons] at hd <;>
      rcases hd with h | h <;> first
        | (subst h; simp)
        | exact ih _ d h

/-- C1: from `Idle`, a press dispatches `start_recording` exactly when its
false→true compare-and-swap succeeds and a release dispatches
`stop_and_transcribe` exactly when its true→false swap succeeds; duplicate
presses while recording and duplicate releases while idle dispatch nothing;
the flag ends `true` iff the effective presses exceed the effective
releases by one, no edge dispatches more than one command, and the total
number of dispatches is the number of effective edges. -/
theorem hotkey_sequence_correct (es : List Edge) :
    (((hotkeyRun false es).1 = true) ↔
        (effCounts false es).1 = (effCounts false es).2 + 1)
    ∧ (∀ d ∈ (hotkeyRun false es).2, d.length ≤ 1)
    ∧ ((hotkeyRun false es).2.flatten).length
        = (effCounts false es).1 + (effCounts false es).2
    ∧ hotkeyStep false .press = (true, [jcmd "start_recording"])
    ∧ hotkeyStep true .press = (true, [])
    ∧ hotkeyStep true .release = (false, [jcmd "stop_and_transcribe"])
    ∧ hotkeyStep false .release = (false, []) := by
  refine ⟨?_, hotkeyRun_mem_len es false, hotkeyRun_flatten_len es false, rfl, rfl, rfl, rfl⟩
  have h := hotkeyRun_flag_iff es false
  simpa using h

/-- C1 witness: the sequence press, press, release, release, press leaves
the flag `true` (two effective presses, one effective release) and
dispatches exactly three commands. -/
theorem hotkey_sequence_correct_witness :
    ((hotkeyRun false [Edge.press, .press, .release, .release, .press]).1 = true)
    ∧ ((hotkeyRun false [Edge.press, .press, .release, .release, .press]).2.flatten).length
        = 3 := by
  have h := hotkey_sequence_correct [Edge.press, .press, .release, .release, .press]
  exact ⟨h.1.mpr (by decide), by rw [h.2.2.1]; decide⟩

/-! ## Reader epilogue (C2) -/

/-- C2: whenever the reader loop ends because stdout reached end-of-stream,
the epilogue stores `false` into the RecordingFlag and emits exactly one
synthetic `error` event stating the sidecar disconnected and will restart
on the next action; the reader performs no launch attempt of its own. -/
theorem reader_eof_disconnect (decode : List Nat → Bool × String)
    (parse : String → Except String JValue) (clipRes : String → Option String)
    (lines : List (List Nat)) :
    (readerRun decode parse clipRes lines .eof).flagAfter = false
    ∧ (readerRun decode parse clipRes lines .eof).synthetic = [disconnectEvent]
    ∧ disconnectEvent
        = jerror "ASR sidecar disconnected. It will restart on next action."
    ∧ (readerRun decode parse clipRes lines .eof).spawnsAttempted = 0 :=
  ⟨rfl, rfl, rfl, rfl⟩

/-! ## UI commands are not debounced (C10) -/

theorem send_sidecar_command_recording (st : AppState)
    (tryWait : Nat → TryWaitResult) (launch : Except String SidecarProc)
    (writeRes flushRes : Option String) (command : JValue) :
    (send_sidecar_command st tryWait launch writeRes flushRes command).st.recording
      = st.recording := by
  have hens : (ensure_sidecar_running st tryWait launch).st.recording = st.recording := by
    unfold ensure_sidecar_running
    rcases st with ⟨slot, rec, sd⟩
    cases slot with
    | none => cases launch <;> simp
    | some p => cases h : tryWait p.id <;> cases launch <;> simp [h]
  unfold send_sidecar_command
  cases hres : (ensure_sidecar_running st tryWait launch).res with
  | some e => simpa [hres] using hens
  | none =>
    cases hslot : (ensure_sidecar_running st tryWait launch).st.slot with
    | none => simpa [hres, hslot] using hens
    | some proc =>
      cases writeRes with
      | some w => simpa [hres, hslot] using hens
      | none => cases flushRes <;> simpa [hres, hslot] using hens

theorem send_command_or_emit_error_spec (st : AppState)
    (tryWait : Nat → TryWaitResult) (launch : Except String SidecarProc)
    (writeRes flushRes : Option String) (payload : JValue) :
    (send_command_or_emit_error st tryWait launch writeRes flushRes payload).dispatched
        = [payload]
    ∧ (send_command_or_emit_error st tryWait launch writeRes flushRes payload).st.recording
        = st.recording := by
  unfold send_command_or_emit_error
  cases hres : (send_sidecar_command st tryWait launch writeRes flushRes payload).res <;>
    simp [hres, send_sidecar_command_recording st tryWait launch writeRes flushRes payload]

/-- C10: the UI-invoked commands are not compare-and-swap gated: each
unconditionally overwrites the RecordingFlag (`true` for `start_recording`,
`false` for the other two) and always dispatches its command, whatever the
flag's prior value; two consecutive UI `start_recording` calls dispatch the
`start_recording` command twice. -/
theorem ui_commands_not_debounced (st : AppState) (tryWait : Nat → TryWaitResult)
    (launch : Except String SidecarProc) (writeRes flushRes : Option String) :
    (start_recording st tryWait launch writeRes flushRes).st.recording = true
    ∧ (stop_and_transcribe st tryWait launch writeRes flushRes).st.recording = false
    ∧ (cancel_current st tryWait launch writeRes flushRes).st.recording = false
    ∧ (start_recording st tryWait launch writeRes flushRes).dispatched
        = [jcmd "start_recording"]
    ∧ (stop_and_transcribe st tryWait launch writeRes flushRes).dispatched
        = [jcmd "stop_and_transcribe"]
    ∧ (cancel_current st tryWait launch writeRes flushRes).dispatched
        = [jcmd "cancel_current"]
    ∧ (start_recording st tryWait launch writeRes flushRes).dispatched
        ++ (start_recording (start_recording st tryWait launch writeRes flushRes).st
              tryWait launch writeRes flushRes).dispatched
        = [jcmd "start_recording", jcmd "start_recording"] := by
  refine ⟨?_, ?_, ?_, ?_, ?_, ?_, ?_⟩ <;>
    simp [start_recording, stop_and_transcribe, cancel_current,
      (send_command_or_emit_error_spec _ tryWait launch writeRes flushRes _).1,
      (send_command_or_emit_error_spec _ tryWait launch writeRes flushRes _).2]

/-! ## Event routing (C4) -/

theorem copy_text_to_clipboard_clipboard (clipRes : String → Option String)
    (t : String) : (copy_text_to_clipboard clipRes t).clipboard = [t] := by
  unfold copy_text_to_clipboard
  cases clipRes t <;> rfl

/-- C4: a parsed payload whose `event` is `final_transcript` with a string
`text` field hands exactly that text to the clipboard sink exactly once and
is still emitted verbatim (last, after any clipboard-failure event); every
other parsed payload is emitted alone with no clipboard call. -/
theorem final_transcript_routing (clipRes : String → Option String) (payload : JValue) :
    (∀ t : String,
        payload.getField "event" = some (.str "final_transcript") →
        payload.getField "text" = some (.str t) →
        (processParsed clipRes payload).clipboard = [t]
        ∧ (processParsed clipRes payload).emitted.getLast? = some payload)
    ∧ (payload.getField "event" ≠ some (.str "final_transcript") →
        (processParsed clipRes payload).clipboard = []
        ∧ (processParsed clipRes payload).emitted = [payload])
    ∧ ((∀ t : String, payload.getField "text" ≠ some (.str t)) →
        (processParsed clipRes payload).clipboard = []
        ∧ (processParsed clipRes payload).emitted = [payload]) := by
  refine ⟨?_, ?_, ?_⟩
  · intro t he ht
    simp only [processParsed, he, ht, if_pos rfl]
    constructor
    · simpa using copy_text_to_clipboard_clipboard clipRes t
    · simp [List.getLast?_concat]
  · intro he
    simp [processParsed, he, LineOut.empty]
  · intro ht
    by_cases he : payload.getField "event" = some (.str "final_transcript")
    · rcases hx : payload.getField "text" with _ | v
      · simp [processParsed, he, hx, LineOut.empty]
      · cases v with
        | str s => exact absurd hx (ht s)
        | null => simp [processParsed, he, hx, LineOut.empty]
        | bool b => simp [processParsed, he, hx, LineOut.empty]
        | num n => simp [processParsed, he, hx, LineOut.empty]
        | arr a => simp [processParsed, he, hx, LineOut.empty]
        | obj o => simp [processParsed, he, hx, LineOut.empty]
    · simp [processParsed, he, LineOut.empty]

/-- C4 witness: the round-trip payload
`{"event":"final_transcript","text":"hello world"}` puts exactly
`hello world` on the clipboard once and is itself the last event emitted. -/
theorem final_transcript_routing_witness :
    (processParsed wClip wFinalPayload).clipboard = ["hello world"]
    ∧ (processParsed wClip wFinalPayload).emitted.getLast? = some wFinalPayload :=
  (final_transcript_routing wClip wFinalPayload).1 "hello world" rfl rfl

/-! ## Malformed lines are skipped (C8) -/

theorem readerLoop_append (decode : List Nat → Bool × String)
    (parse : String → Except String JValue) (clipRes : String → Option String)
    (xs ys : List (List Nat)) (cause : TermCause) :
    readerLoop decode parse clipRes (xs ++ ys) cause =
      ⟨(readerLoop decode parse clipRes xs .eof).clipboard
         ++ (readerLoop decode parse clipRes ys cause).clipboard,
       (readerLoop decode parse clipRes xs .eof).emitted
         ++ (readerLoop decode parse clipRes ys cause).emitted,
       (readerLoop decode parse clipRes xs .eof).logs
         ++ (readerLoop decode parse clipRes ys cause).logs⟩ := by
  induction xs with
  | nil => simp [readerLoop, LineOut.empty]
  | cons l ls ih => simp [readerLoop, ih]

/-- C8: a line that trims to something non-empty but fails to parse as JSON
produces no event and no clipboard call, only a log line; the reader's
output for the whole stream is unchanged except for that log, so every
subsequent valid line is still parsed and forwarded, and the loop still
reaches its normal end. -/
theorem invalid_json_skipped (decode : List Nat → Bool × String)
    (parse : String → Except String JValue) (clipRes : String → Option String)
    (pre post : List (List Nat)) (bad : List Nat) (cause : TermCause) (e : String)
    (hne : trimTrailingNewlines bad ≠ [])
    (hbad : parse (decode (trimTrailingNewlines bad)).2 = .error e) :
    (processLine decode parse clipRes bad).clipboard = []
    ∧ (processLine decode parse clipRes bad).emitted = []
    ∧ (processLine decode parse clipRes bad).logs ≠ []
    ∧ (readerRun decode parse clipRes (pre ++ bad :: post) cause).emitted
        = (readerRun decode parse clipRes (pre ++ post) cause).emitted
    ∧ (readerRun decode parse clipRes (pre ++ bad :: post) cause).clipboard
        = (readerRun decode parse clipRes (pre ++ post) cause).clipboard
    ∧ (readerRun decode parse clipRes (pre ++ bad :: post) cause).synthetic
        = (readerRun decode parse clipRes (pre ++ post) cause).synthetic
    ∧ (readerRun decode parse clipRes (pre ++ bad :: post) cause).flagAfter
        = (readerRun decode parse clipRes (pre ++ post) cause).flagAfter := by
  have hline : processLine decode parse clipRes bad =
      ⟨[], [],
       (if (decode (trimTrailingNewlines bad)).1 then []
        else ["sidecar stdout contained non-UTF8 bytes; decoding lossy"])
       ++ ["invalid sidecar JSON " ++ squote ++ (decode (trimTrailingNewlines bad)).2
            ++ squote ++ ": " ++ e]⟩ := by
    simp [processLine, hne, hbad]
  have hmid : ∀ zs : List (List Nat),
      readerLoop decode parse clipRes (bad :: zs) cause =
        ⟨(readerLoop decode parse clipRes zs cause).clipboard,
         (readerLoop decode parse clipRes zs cause).emitted,
         (processLine decode parse clipRes bad).logs
           ++ (readerLoop decode parse clipRes zs cause).logs⟩ := by
    intro zs
    simp [readerLoop, hline]
  refine ⟨by simp [hline], by simp [hline], by simp [hline], ?_, ?_, rfl, rfl⟩ <;>
    simp [readerRun, readerLoop_append decode parse clipRes pre (bad :: post) cause,
      readerLoop_append decode parse clipRes pre post cause, hmid]

/-- C8 witness: with the identity decoder and the toy parser accepting only
the literal object line, an unparsable line between two runs leaves the
forwarded events unchanged. -/
theorem invalid_json_skipped_witness :
    trimTrailingNewlines (wBytes "oops") ≠ []
    ∧ wParse (wDecode (trimTrailingNewlines (wBytes "oops"))).2 = .error "expected value"
    ∧ (readerRun wDecode wParse wClip [wBytes "oops", wBytes "\x7b\x7d"] .eof).emitted
        = (readerRun wDecode wParse wClip [wBytes "\x7b\x7d"] .eof).emitted :=
  ⟨by decide, by rfl,
   (invalid_json_skipped wDecode wParse wClip [] [wBytes "\x7b\x7d"] (wBytes "oops")
      .eof "expected value" (by decide) (by rfl)).2.2.2.1⟩

/-! ## The serialized command is a single line (towards C6) -/

theorem hexDigit_ne_newline : ∀ n < 16, hexDigit n ≠ Char.ofNat 10 := by decide

/-- Characters of a constant string free of the line-feed. -/
theorem ne_newline_const (s : String) (h : Char.ofNat 10 ∉ s.data) :
    ∀ d ∈ s.data, d ≠ Char.ofNat 10 := fun _ hd heq => h (heq ▸ hd)

/-- Line-feed freedom is preserved by string append. -/
theorem ne_newline_append {s t : String}
    (hs : ∀ d ∈ s.data, d ≠ Char.ofNat 10) (ht : ∀ d ∈ t.data, d ≠ Char.ofNat 10) :
    ∀ d ∈ (s ++ t).data, d ≠ Char.ofNat 10 := by
  intro d hd
  rw [String.data_append] at hd
  rcases List.mem_append.mp hd with h | h
  · exact hs d h
  · exact ht d h

theorem singleton_hexDigit_ne_newline {n : Nat} (h : n < 16) :
    ∀ d ∈ (String.singleton (hexDigit n)).data, d ≠ Char.ofNat 10 := by
  intro d hd
  rcases List.mem_singleton.mp hd with rfl
  exact hexDigit_ne_newline n h

theorem escapeChar_ne_newline (c : Char) :
    ∀ d ∈ (escapeChar c).data, d ≠ Char.ofNat 10 := by
  unfold escapeChar
  split_ifs with h1 h2 h3 h4 h5 h6 h7 h8
  · exact ne_newline_const _ (by decide)
  · exact ne_newline_const _ (by decide)
  · exact ne_newline_const _ (by decide)
  · exact ne_newline_const _ (by decide)
  · exact ne_newline_const _ (by decide)
  · exact ne_newline_const _ (by decide)
  · exact ne_newline_const _ (by decide)
  · exact ne_newline_append
      (ne_newline_append (ne_newline_const _ (by decide))
        (singleton_hexDigit_ne_newline (Nat.div_lt_of_lt_mul (by omega))))
      (singleton_hexDigit_ne_newline (Nat.mod_lt _ (by omega)))
  · intro d hd
    rcases List.mem_singleton.mp hd with rfl
    intro hc
    subst hc
    exact h8 (by decide)

theorem escapeList_ne_newline : ∀ l : List Char,
    ∀ d ∈ (escapeList l).data, d ≠ Char.ofNat 10
  | [] => by simp [escapeList]
  | c :: cs => by
    intro d hd
    rw [escapeList] at hd
    exact ne_newline_append (escapeChar_ne_newline c) (escapeList_ne_newline cs) d hd

theorem escapeString_ne_newline (s : String) :
    ∀ d ∈ (escapeString s).data, d ≠ Char.ofNat 10 :=
  escapeList_ne_newline s.data

theorem natDigitsAux_ne_newline : ∀ n acc,
    (∀ c ∈ acc, c ≠ Char.ofNat 10) →
    ∀ c ∈ natDigitsAux n acc, c ≠ Char.ofNat 10 := by
  intro n
  induction n using Nat.strong_induction_on with
  | _ n ih =>
    match n with
    | 0 =>
      intro acc hacc
      simpa [natDigitsAux] using hacc
    | m + 1 =>
      intro acc hacc
      rw [natDigitsAux]
      refine ih ((m + 1) / 10) (Nat.div_lt_self (Nat.succ_pos m) (by omega)) _ ?_
      intro c hc
      rcases List.mem_cons.mp hc with rfl | h
      · have hlt : (m + 1) % 10 < 10 := Nat.mod_lt _ (by omega)
        have hne : ∀ r < 10, Char.ofNat (48 + r) ≠ Char.ofNat 10 := by decide
        exact hne _ hlt
      · exact hacc c h

theorem natToStr_ne_newline (n : Nat) :
    ∀ d ∈ (natToStr n).data, d ≠ Char.ofNat 10 := by
  unfold natToStr
  split_ifs
  · exact ne_newline_const _ (by decide)
  · exact natDigitsAux_ne_newline n [] (by simp)

theorem intToStr_ne_newline (i : Int) :
    ∀ d ∈ (intToStr i).data, d ≠ Char.ofNat 10 := by
  unfold intToStr
  split_ifs
  · exact ne_newline_append (ne_newline_const _ (by decide)) (natToStr_ne_newline _)
  · exact natToStr_ne_newline _

mutual

theorem renderValue_ne_newline : ∀ v : JValue,
    ∀ d ∈ (JValue.render v).data, d ≠ Char.ofNat 10
  | .null => ne_newline_const _ (by decide)
  | .bool true => ne_newline_const _ (by decide)
  | .bool false => ne_newline_const _ (by decide)
  | .num n => intToStr_ne_newline n
  | .str s => by
    intro d hd
    rw [JValue.render] at hd
    exact ne_newline_append
      (ne_newline_append (ne_newline_const _ (by decide)) (escapeString_ne_newline s))
      (ne_newline_const _ (by decide)) d hd
  | .arr a => by
    intro d hd
    rw [JValue.render] at hd
    exact ne_newline_append
      (ne_newline_append (ne_newline_const _ (by decide)) (renderArr_ne_newline a))
      (ne_newline_const _ (by decide)) d hd
  | .obj o => by
    intro d hd
    rw [JValue.render] at hd
    exact ne_newline_append
      (ne_newline_append (ne_newline_const _ (by decide)) (renderObj_ne_newline o))
      (ne_newline_const _ (by decide)) d hd

theorem renderArr_ne_newline : ∀ a : JArr,
    ∀ d ∈ (JArr.render a).data, d ≠ Char.ofNat 10
  | .nil => by simp [JArr.render]
  | .cons v .nil => by
    intro d hd
    rw [JArr.render] at hd
    exact renderValue_ne_newline v d hd
  | .cons v (.cons w t) => by
    intro d hd
    rw [JArr.render] at hd
    exact ne_newline_append
      (ne_newline_append (renderValue_ne_newline v) (ne_newline_const _ (by decide)))
      (renderArr_ne_newline (.cons w t)) d hd

theorem renderObj_ne_newline : ∀ o : JObj,
    ∀ d ∈ (JObj.render o).data, d ≠ Char.ofNat 10
  | .nil => by simp [JObj.render]
  | .cons k v .nil => by
    intro d hd
    rw [JObj.render] at hd
    exact ne_newline_append
      (ne_newline_append
        (ne_newline_append (ne_newline_const _ (by decide)) (escapeString_ne_newline k))
        (ne_newline_const _ (by decide)))
      (renderValue_ne_newline v) d hd
  | .cons k v (.cons k2 w t) => by
    intro d hd
    rw [JObj.render] at hd
    exact ne_newline_append
      (ne_newline_append
        (ne_newline_append
          (ne_newline_append
            (ne_newline_append (ne_newline_const _ (by decide)) (escapeString_ne_newline k))
            (ne_newline_const _ (by decide)))
          (renderValue_ne_newline v))
        (ne_newline_const _ (by decide)))
      (renderObj_ne_newline (.cons k2 w t)) d hd

end

/-- The dispatched chunk `render v ++ "\n"` is one line: it contains the
line-feed exactly once, as its final character. -/
theorem render_line_single_newline (v : JValue) :
    ((JValue.render v ++ "\n").data.count (Char.ofNat 10) = 1)
    ∧ (JValue.render v ++ "\n").data.getLast? = some (Char.ofNat 10) := by
  constructor
  · rw [String.data_append, List.count_append]
    have h0 : (JValue.render v).data.count (Char.ofNat 10) = 0 :=
      List.count_eq_zero.mpr (fun h => renderValue_ne_newline v _ h rfl)
    have h1 : ("\n" : String).data.count (Char.ofNat 10) = 1 := by decide
    omega
  · rw [String.data_append]
    have hn : ("\n" : String).data = [Char.ofNat 10] := by decide
    rw [hn, List.getLast?_concat]

/-! ## Dispatch contract (C6) -/

/-- C6: a dispatch first runs `ensure_sidecar_running` (its launch attempts
and any error are exactly the ensure step's); when the worker is available
it performs exactly one write of `render command ++ "\n"` — one JSON line
with a single terminating line-feed — followed by a flush, and a write or
flush failure is returned as the dispatch error with no retry (never more
than one write attempt). -/
theorem dispatch_serializes_one_line (st : AppState) (tryWait : Nat → TryWaitResult)
    (launch : Except String SidecarProc) (writeRes flushRes : Option String)
    (command : JValue) :
    (send_sidecar_command st tryWait launch writeRes flushRes command).writes ≤ 1
    ∧ (send_sidecar_command st tryWait launch writeRes flushRes command).launches
        = (ensure_sidecar_running st tryWait launch).launches
    ∧ (∀ e, (ensure_sidecar_running st tryWait launch).res = some e →
        (send_sidecar_command st tryWait launch writeRes flushRes command).res = some e
        ∧ (send_sidecar_command st tryWait launch writeRes flushRes command).writes = 0)
    ∧ (∀ proc, (ensure_sidecar_running st tryWait launch).res = none →
        (ensure_sidecar_running st tryWait launch).st.slot = some proc →
        ((writeRes = none → flushRes = none →
            (send_sidecar_command st tryWait launch writeRes flushRes command).st.slot
              = some { proc with
                  stdinWrites := proc.stdinWrites ++ [JValue.render command ++ "\n"] }
            ∧ (send_sidecar_command st tryWait launch writeRes flushRes command).res = none
            ∧ (send_sidecar_command st tryWait launch writeRes flushRes command).writes = 1)
         ∧ (∀ w, writeRes = some w →
            (send_sidecar_command st tryWait launch writeRes flushRes command).res
              = some ("failed to write sidecar command: " ++ w))
         ∧ (∀ f, writeRes = none → flushRes = some f →
            (send_sidecar_command st tryWait launch writeRes flushRes command).res
              = some ("failed to flush sidecar command: " ++ f)
            ∧ (send_sidecar_command st tryWait launch writeRes flushRes command).st.slot
              = some { proc with
                  stdinWrites := proc.stdinWrites ++ [JValue.render command ++ "\n"] })))
    ∧ ((JValue.render command ++ "\n").data.count (Char.ofNat 10) = 1)
    ∧ ((JValue.render command ++ "\n").data.getLast? = some (Char.ofNat 10)) := by
  cases hres : (ensure_sidecar_running st tryWait launch).res with
  | some e =>
      refine ⟨?_, ?_, ?_, ?_, (render_line_single_newline command).1,
        (render_line_single_newline command).2⟩ <;>
        simp [send_sidecar_command, hres]
  | none =>
      cases hslot : (ensure_sidecar_running st tryWait launch).st.slot with
      | none =>
          refine ⟨?_, ?_, ?_, ?_, (render_line_single_newline command).1,
            (render_line_single_newline command).2⟩ <;>
            simp [send_sidecar_command, hres, hslot]
      | some proc =>
          cases writeRes with
          | some w =>
              refine ⟨?_, ?_, ?_, ?_, (render_line_single_newline command).1,
                (render_line_single_newline command).2⟩ <;>
                simp [send_sidecar_command, hres, hslot]
          | none =>
              cases flushRes with
              | some f =>
                  refine ⟨?_, ?_, ?_, ?_, (render_line_single_newline command).1,
                    (render_line_single_newline command).2⟩ <;>
                    simp [send_sidecar_command, hres, hslot]
              | none =>
                  refine ⟨?_, ?_, ?_, ?_, (render_line_single_newline command).1,
                    (render_line_single_newline command).2⟩ <;>
                    simp [send_sidecar_command, hres, hslot]

/-- C6 witness: with a live worker and successful write+flush, exactly the
serialized `start_recording` line is appended to that worker's stdin. -/
theorem dispatch_serializes_one_line_witness :
    (send_sidecar_command ⟨some (wProc 1), false, false⟩ wTryWaitRunning (.error "no")
        none none (jcmd "start_recording")).st.slot
      = some ⟨1, [JValue.render (jcmd "start_recording") ++ "\n"]⟩
    ∧ (send_sidecar_command ⟨some (wProc 1), false, false⟩ wTryWaitRunning (.error "no")
        none none (jcmd "start_recording")).writes = 1 := by
  have h := (dispatch_serializes_one_line ⟨some (wProc 1), false, false⟩ wTryWaitRunning
    (.error "no") none none (jcmd "start_recording")).2.2.2.1 (wProc 1) rfl rfl
  exact ⟨(h.1 rfl rfl).1, (h.1 rfl rfl).2.2⟩

/-! ## ensure_sidecar_running contract (C7) -/

/-- C7: `ensure_sidecar_running` launches at most once per call, restarts
exactly when the slot is empty or the probe observes an exit or itself
errors, leaves a live handle alone, stores a fresh handle replacing the old
one on successful launch, and propagates a launch failure leaving the slot
unchanged (still holding at most one handle). -/
theorem ensure_running_contract (st : AppState) (tryWait : Nat → TryWaitResult)
    (launch : Except String SidecarProc) :
    (ensure_sidecar_running st tryWait launch).launches ≤ 1
    ∧ (st.slot = none → needsRestart st tryWait = true)
    ∧ (∀ p, st.slot = some p → ∀ s, tryWait p.id = .exited s → needsRestart st tryWait = true)
    ∧ (∀ p, st.slot = some p → ∀ e, tryWait p.id = .err e → needsRestart st tryWait = true)
    ∧ (∀ p, st.slot = some p → tryWait p.id = .running → needsRestart st tryWait = false)
    ∧ (needsRestart st tryWait = false →
        ensure_sidecar_running st tryWait launch = ⟨st, none, 0, []⟩)
    ∧ (needsRestart st tryWait = true →
        (∀ q, launch = .ok q →
          (ensure_sidecar_running st tryWait launch).st = { st with slot := some q }
          ∧ (ensure_sidecar_running st tryWait launch).res = none)
        ∧ (∀ e, launch = .error e →
          (ensure_sidecar_running st tryWait launch).res = some e
          ∧ (ensure_sidecar_running st tryWait launch).st = st)) := by
  rcases st with ⟨slot, rec, sd⟩
  cases slot with
  | none =>
      cases launch <;> simp [ensure_sidecar_running, needsRestart]
  | some p =>
      cases hw : tryWait p.id <;> cases launch <;>
        simp [ensure_sidecar_running, needsRestart, hw]

/-- C7 witness: a handle whose probe observes an exit is replaced by the
freshly launched one. -/
theorem ensure_running_contract_witness :
    needsRestart ⟨some (wProc 1), false, false⟩ wTryWaitExited = true
    ∧ (ensure_sidecar_running ⟨some (wProc 1), false, false⟩ wTryWaitExited
        (.ok (wProc 2))).st = ⟨some (wProc 2), false, false⟩
    ∧ (ensure_sidecar_running ⟨some (wProc 1), false, false⟩ wTryWaitExited
        (.ok (wProc 2))).res = none := by
  have h := (ensure_running_contract ⟨some (wProc 1), false, false⟩ wTryWaitExited
    (.ok (wProc 2))).2.2.2.2.2.2 rfl
  exact ⟨rfl, (h.1 (wProc 2) rfl).1, (h.1 (wProc 2) rfl).2⟩

/-! ## Teardown is best-effort (C9) -/

/-- C9: `cleanup_sidecar` sets the ShutdownFlag, empties the slot, and when
a handle was present attempts all four teardown steps — write the
`shutdown` command line, flush, kill, wait — in order, whatever any of the
four step results are (they are all discarded), so no failure prevents a
later step. -/
theorem cleanup_best_effort (st : AppState) (wr fr kr war : Option String) :
    (cleanup_sidecar st wr fr kr war).st.shutdown = true
    ∧ (cleanup_sidecar st wr fr kr war).st.slot = none
    ∧ (∀ p, st.slot = some p →
        (cleanup_sidecar st wr fr kr war).steps
          = [.writeCmd, .flushStdin, .killChild, .waitChild]
        ∧ (cleanup_sidecar st wr fr kr war).stdinAttempt
          = [(jcmd "shutdown").render ++ "\n"])
    ∧ (st.slot = none → (cleanup_sidecar st wr fr kr war).steps = []) := by
  cases hs : st.slot <;> simp [cleanup_sidecar, hs]

/-- C9 witness: even when every teardown step fails, all four steps are
still attempted in order and the slot ends empty. -/
theorem cleanup_best_effort_witness :
    (cleanup_sidecar ⟨some (wProc 1), true, false⟩ (some "broken pipe")
        (some "broken pipe") (some "no such process") (some "wait failed")).steps
      = [.writeCmd, .flushStdin, .killChild, .waitChild]
    ∧ (cleanup_sidecar ⟨some (wProc 1), true, false⟩ (some "broken pipe")
        (some "broken pipe") (some "no such process") (some "wait failed")).st.slot
      = none := by
  have h := cleanup_best_effort ⟨some (wProc 1), true, false⟩ (some "broken pipe")
    (some "broken pipe") (some "no such process") (some "wait failed")
  exact ⟨(h.2.2.1 (wProc 1) rfl).1, h.2.1⟩

/-! ## Fallback gating (C5) -/

theorem intercalate_singleton (sep s : String) : String.intercalate sep [s] = s := by
  simp [String.intercalate, String.intercalate.go]

/-- C5: the interpreter-script fallback tier is attempted only when
`allow_script_fallback` holds (debug build, or the opt-in variable trimmed
to `1`/case-insensitive `true`); when tier 1 fails — binary not found, or
found but failing to spawn — and fallback is not permitted, the launch
fails immediately with the aggregated error listing every attempt, with no
interpreter ever spawned. -/
theorem fallback_gating (windows debugAssertions : Bool) (envVar : Option String)
    (pexists : String → Bool) (cwd : Option String) (exeAncestors : List String)
    (resourceDir : Option String)
    (spawnOS : String → List String → Except SpawnErr SidecarProc) :
    (allow_script_fallback debugAssertions envVar = false →
      (∀ e, find_sidecar_binary windows pexists cwd exeAncestors resourceDir = .error e →
        start_sidecar_process windows debugAssertions envVar pexists cwd exeAncestors
            resourceDir spawnOS
          = ⟨.error ("failed to start bundled ASR sidecar; reinstall app. details: " ++ e),
             []⟩)
      ∧ (∀ bin e, find_sidecar_binary windows pexists cwd exeAncestors resourceDir = .ok bin →
          spawn_sidecar_command spawnOS bin [] bin = .error e →
          start_sidecar_process windows debugAssertions envVar pexists cwd exeAncestors
              resourceDir spawnOS
            = ⟨.error ("failed to start bundled ASR sidecar; reinstall app. details: " ++ e),
               [(bin, [])]⟩))
    ∧ (∀ pa ∈ (start_sidecar_process windows debugAssertions envVar pexists cwd exeAncestors
          resourceDir spawnOS).attempts,
        (∃ bin, find_sidecar_binary windows pexists cwd exeAncestors resourceDir = .ok bin
          ∧ pa = (bin, []))
        ∨ allow_script_fallback debugAssertions envVar = true) := by
  constructor
  · intro hallow
    constructor
    · intro e he
      simp [start_sidecar_process, he, hallow, intercalate_singleton]
    · intro bin e hbin hspawn
      simp [start_sidecar_process, hbin, hspawn, hallow, intercalate_singleton]
  · intro pa hpa
    cases hallow : allow_script_fallback debugAssertions envVar with
    | true => exact Or.inr rfl
    | false =>
      left
      cases hbin : find_sidecar_binary windows pexists cwd exeAncestors resourceDir with
      | error e =>
          simp [start_sidecar_process, hbin, hallow] at hpa
      | ok bin =>
          cases hspawn : spawn_sidecar_command spawnOS bin [] bin with
          | ok p =>
              simp [start_sidecar_process, hbin, hspawn, hallow] at hpa
              exact ⟨bin, rfl, hpa⟩
          | error e =>
              simp [start_sidecar_process, hbin, hspawn, hallow] at hpa
              exact ⟨bin, rfl, hpa⟩

/-- C5 witness: release build, no opt-in variable, no file anywhere: the
launch fails with the aggregated tier-1 error and no spawn is attempted. -/
theorem fallback_gating_witness :
    allow_script_fallback false none = false
    ∧ start_sidecar_process false false none wNoFile none [] none wSpawnFail
        = ⟨.error ("failed to start bundled ASR sidecar; reinstall app. details: "
            ++ ("bundled sidecar binary " ++ squote ++ "sber-whisper-sidecar" ++ squote
                ++ " not found (checked 5 paths)")), []⟩ := by
  have h := (fallback_gating false false none wNoFile none [] none wSpawnFail).1 rfl
  exact ⟨rfl, h.1 _ rfl⟩

/-! ## Discovery (C3) -/

theorem scanCandidates_spec (pexists : String → Bool) : ∀ (l : List String) (n : Nat),
    scanCandidates pexists l n =
      match l.find? pexists with
      | some p => .ok p
      | none => .error (n + l.length) := by
  intro l
  induction l with
  | nil => intro n; simp [scanCandidates]
  | cons p ps ih =>
    intro n
    by_cases hp : pexists p
    · simp [scanCandidates, hp, List.find?_cons_of_pos _ hp]
    · rw [scanCandidates, if_neg (by simpa using hp), ih,
        List.find?_cons_of_neg _ (by simpa using hp)]
      cases ps.find? pexists
      · simp
        omega
      · simp

theorem py_exe_block_length (l : List String) :
    ((l.map (fun base =>
        [pjoin base "python/asr_service.py",
         pjoin base "_up_/python/asr_service.py",
         pjoin base "../python/asr_service.py",
         pjoin base "../_up_/python/asr_service.py"])).flatten).length
      = 4 * l.length := by
  induction l with
  | nil => simp
  | cons x xs ih => simp [ih]; omega

theorem bin_exe_block_length (windows : Bool) (l : List String) :
    ((l.map (fun base =>
        [pjoin base (pjoin "python/dist/sber-whisper-sidecar" (sidecar_binary_name windows)),
         pjoin base (pjoin "_up_" (pjoin "python/dist/sber-whisper-sidecar" (sidecar_binary_name windows))),
         pjoin base (pjoin "sber-whisper-sidecar" (sidecar_binary_name windows))])).flatten).length
      = 3 * l.length := by
  induction l with
  | nil => simp
  | cons x xs ih => simp [ih]; omega

/-- C3 counterexample: the candidate list is not deduplicated.  With the
working directory equal to one of the executable's ancestor directories
(here `/app`), the four cwd-anchored candidates literally repeat four of
the ancestor-anchored ones. -/
theorem discovery_candidates_not_dedup :
    ¬ (find_python_script_candidates (some "/app")
        ["/app/sber-whisper", "/app", "/"] none).Nodup := by
  decide

/-- C3 (amended): discovery builds an ordered (not deduplicated) candidate
list, returns the first existing candidate, and otherwise fails with a
message counting every candidate checked; the count is a deterministic
function of which anchors are available: for the python script
`5 + 4·(cwd present) + 4·min(7, exe ancestors) + 3·(resource present)`,
for the sidecar binary
`5 + 2·(cwd present) + 3·(resource present) + 3·min(7, exe ancestors)`. -/
theorem discovery_contract (windows : Bool) (pexists : String → Bool)
    (cwd : Option String) (exeAncestors : List String) (resourceDir : Option String) :
    (find_python_script pexists cwd exeAncestors resourceDir =
      match (find_python_script_candidates cwd exeAncestors resourceDir).find? pexists with
      | some p => .ok p
      | none => .error ("python/asr_service.py not found (checked "
          ++ toString (find_python_script_candidates cwd exeAncestors resourceDir).length
          ++ " paths)"))
    ∧ (find_sidecar_binary windows pexists cwd exeAncestors resourceDir =
      match (find_sidecar_binary_candidates windows cwd exeAncestors resourceDir).find? pexists with
      | some p => .ok p
      | none => .error ("bundled sidecar binary " ++ squote ++ sidecar_binary_name windows
          ++ squote ++ " not found (checked "
          ++ toString (find_sidecar_binary_candidates windows cwd exeAncestors resourceDir).length
          ++ " paths)"))
    ∧ (find_python_script_candidates cwd exeAncestors resourceDir).length
        = 5 + (if cwd.isSome then 4 else 0) + 4 * min 7 exeAncestors.length
          + (if resourceDir.isSome then 3 else 0)
    ∧ (find_sidecar_binary_candidates windows cwd exeAncestors resourceDir).length
        = 5 + (if cwd.isSome then 2 else 0) + (if resourceDir.isSome then 3 else 0)
          + 3 * min 7 exeAncestors.length := by
  refine ⟨?_, ?_, ?_, ?_⟩
  · rw [find_python_script, scanCandidates_spec]
    cases (find_python_script_candidates cwd exeAncestors resourceDir).find? pexists <;> simp
  · rw [find_sidecar_binary, scanCandidates_spec]
    cases (find_sidecar_binary_candidates windows cwd exeAncestors resourceDir).find? pexists <;> simp
  · cases cwd <;> cases resourceDir <;>
      simp only [find_python_script_candidates, List.length_append, py_exe_block_length,
        List.length_take, Option.isSome_none, Option.isSome_some, List.length_cons,
        List.length_nil, Bool.false_eq_true, if_true, if_false, ite_true, ite_false]
  · cases cwd <;> cases resourceDir <;>
      simp only [find_sidecar_binary_candidates, List.length_append, bin_exe_block_length,
        List.length_take, Option.isSome_none, Option.isSome_some, List.length_cons,
        List.length_nil, Bool.false_eq_true, if_true, if_false, ite_true, ite_false]

end SberWhisper
